import Mathlib

/-!
Verification of the STC-HUB employee portal (frontend React application with
a FastAPI backend). The definitions below are a shallow embedding of the
JavaScript source under src/frontend/src, plus spec-modelled definitions for
the backend meeting endpoints, whose server code is not part of the sources
(only the client callers are present).

Conventions of the embedding:
- JavaScript objects used as string-keyed maps (the userStatuses map,
  localStorage) are embedded as functions from String to Option String;
  a spread update such as writing one key of a copied object is a pointwise
  update of that function.
- Date values are compared by their numeric time in the source, so
  timestamps are embedded as integers (epoch seconds).
- JavaScript string truthiness (empty string is falsy) is made explicit:
  a required field is absent exactly when it equals the empty string.
-/

namespace STC

/-! ## Presence: client WebSocket handlers (src/frontend/src/contexts/AuthContext.js) -/

/-- The client map from user id to presence status, as kept in the
userStatuses React state. A missing entry is none. -/
def StatusMap : Type := String → Option String

/-- Messages the client sends to the presence server. The only one sent by
AuthContext.js is the snapshot request. -/
inductive ClientMsg
  | get_all_statuses
  deriving DecidableEq

/-- Messages the client receives from the presence server, as parsed in the
onmessage handler of AuthContext.js (lines 45-64). Unknown message types are
ignored by the handler, represented by the unknown constructor. -/
inductive ServerMsg
  | status_update (user_id status : String)
  | all_statuses (statuses : StatusMap)
  | unknown (t : String)

/-- Pointwise update of the status map: the object spread
writing one key of a copy of prevStatuses (AuthContext.js lines 35-39 and
50-54). -/
def setUserStatus (m : StatusMap) (uid status : String) : StatusMap :=
  fun k => if k = uid then some status else m k

/-- The ws.onmessage handler of AuthContext.js (lines 45-64): a
status_update message updates the single entry for its user id, an
all_statuses message replaces the whole map with the received snapshot, and
any other message leaves the map unchanged. -/
def onMessage (m : StatusMap) (msg : ServerMsg) : StatusMap :=
  match msg with
  | .status_update uid st => setUserStatus m uid st
  | .all_statuses statuses => statuses
  | .unknown _ => m

/-- The ws.onopen handler of AuthContext.js (lines 31-43): it optimistically
sets the connecting user to online in the local map and sends exactly one
get_all_statuses request. The result is the new map together with the list
of messages sent. -/
def onOpen (userId : String) (m : StatusMap) : StatusMap × List ClientMsg :=
  (setUserStatus m userId "online", [ClientMsg.get_all_statuses])

/-! ## Meeting status derivation (src/frontend/src/components/MeetingScheduler.js) -/

/-- A meeting record as rendered by MeetingScheduler.js. Timestamps are
epoch seconds. -/
structure Meeting where
  id : String
  title : String
  description : String
  start_time : Int
  end_time : Int
  creator_id : String
  creator_name : String
  attendees : List String
  deriving DecidableEq

/-- isUpcoming of MeetingScheduler.js (lines 165-167): the start time is
strictly in the future. -/
def isUpcoming (now startTime : Int) : Bool :=
  decide (now < startTime)

/-- isPast of MeetingScheduler.js (lines 169-171): the end time is strictly
in the past. -/
def isPast (now endTime : Int) : Bool :=
  decide (endTime < now)

/-- isOngoing of MeetingScheduler.js (lines 173-176): now lies in the closed
interval from start to end. -/
def isOngoing (now startTime endTime : Int) : Bool :=
  decide (startTime ≤ now) && decide (now ≤ endTime)

/-- The presentation status label computed by getMeetingStatus. -/
inductive MeetingStatusLabel
  | Ongoing
  | Upcoming
  | Past
  deriving DecidableEq

/-- getMeetingStatus of MeetingScheduler.js (lines 178-186): Ongoing has
priority, then Upcoming, otherwise Past. Recomputed on every render from
the current time, never stored. -/
def getMeetingStatus (now : Int) (m : Meeting) : MeetingStatusLabel :=
  if isOngoing now m.start_time m.end_time then .Ongoing
  else if isUpcoming now m.start_time then .Upcoming
  else .Past

/-! ## Login and admin gate (AuthContext.js, AdminPanel.js) -/

/-- The user object returned by the backend login endpoint, as consumed by
the login function of AuthContext.js. -/
structure ServerUser where
  id : String
  name : String
  email : String
  deriving DecidableEq

/-- The client-side user record built by login in AuthContext.js
(lines 131-141): the server user enriched with the isAdmin flag and the
login time. -/
structure AuthUser where
  id : String
  name : String
  email : String
  isAdmin : Bool
  loginTime : String
  deriving DecidableEq

/-- The single hardcoded administrative address compared against in
AuthContext.js line 134. -/
def ADMIN_EMAIL : String := "admin@showtimeconsulting.in"

/-- The userData object built by login (AuthContext.js lines 132-136):
isAdmin is the equality of the server email with the hardcoded
administrative address. -/
def loginUserData (u : ServerUser) (loginTime : String) : AuthUser :=
  { id := u.id, name := u.name, email := u.email,
    isAdmin := u.email == ADMIN_EMAIL, loginTime := loginTime }

/-- What the AdminPanel component renders at its top-level gate. -/
inductive AdminPanelView
  | accessDenied
  | panel
  deriving DecidableEq

/-- The access gate of AdminPanel.js (lines 109-121): when the user is
absent or its isAdmin flag is false, the component renders the Access
Denied card and none of the user-management UI; otherwise the panel. -/
def adminPanelView (user : Option AuthUser) : AdminPanelView :=
  match user with
  | none => .accessDenied
  | some u => if u.isAdmin then .panel else .accessDenied

/-! ## Meeting creation and deletion (MeetingScheduler.js, backend modelled) -/

/-- The formData React state of MeetingScheduler.js (lines 37-43). The
datetime-local inputs hold strings; an absent required field is the empty
string, matching JavaScript falsiness of the initial state. -/
structure FormData where
  title : String
  description : String
  start_time : String
  end_time : String
  attendees : List String
  deriving DecidableEq

/-- What handleCreateMeeting decides to do with the current form. -/
inductive CreateAction
  | refuse
  | submit (f : FormData)
  deriving DecidableEq

/-- The guard of handleCreateMeeting (MeetingScheduler.js lines 67-71): if
the title, the start time or the end time is falsy, the handler alerts and
returns without issuing any request; otherwise it submits the form. -/
def handleCreateMeeting (f : FormData) : CreateAction :=
  if f.title = "" ∨ f.start_time = "" ∨ f.end_time = "" then .refuse
  else .submit f

/-- The meetings list after running handleCreateMeeting: on refusal the
list is untouched; on submission it becomes whatever the server interaction
produces (abstracted as serverResult, since the early return is the only
client-side effect the guard decides). -/
def meetingsAfterCreate (f : FormData) (meetings : List Meeting)
    (serverResult : FormData → List Meeting → List Meeting) : List Meeting :=
  match handleCreateMeeting f with
  | .refuse => meetings
  | .submit g => serverResult g meetings

/-- addAttendee of MeetingScheduler.js (lines 129-137): only a nonempty
email that is not already in the attendee list is appended, and then the
input field is cleared; otherwise both the form and the input are left as
they are. The result pairs the new form with the new input field value. -/
def addAttendee (attendeeEmail : String) (f : FormData) : FormData × String :=
  if attendeeEmail ≠ "" ∧ attendeeEmail ∉ f.attendees then
    ({ f with attendees := f.attendees ++ [attendeeEmail] }, "")
  else
    (f, attendeeEmail)

/-- The error taxonomy of the backend meeting endpoints, from the spec. -/
inductive MeetingError
  | InvalidTimeRange
  | MissingRequiredField
  | Forbidden
  | NotFound
  deriving DecidableEq

/-- The payload of a create request: the form with its times parsed to
epoch seconds, as built in handleCreateMeeting lines 77-81. -/
structure MeetingInput where
  title : String
  description : String
  start_time : Int
  end_time : Int
  attendees : List String
  deriving DecidableEq

/-- Modelled from the spec: the backend meeting create endpoint, whose
server code is not among the sources (only the client caller in
MeetingScheduler.js is). Per spec section 4.5 it fails with
InvalidTimeRange if start is greater than or equal to end, fails with
MissingRequiredField if the title is absent, and otherwise appends the new
meeting record to the store. -/
def createMeeting (store : List Meeting) (creator_id creator_name : String)
    (inp : MeetingInput) (newId : String) : Except MeetingError (List Meeting) :=
  if inp.end_time ≤ inp.start_time then .error .InvalidTimeRange
  else if inp.title = "" then .error .MissingRequiredField
  else
    let m : Meeting :=
      { id := newId,
        title := inp.title,
        description := inp.description,
        start_time := inp.start_time,
        end_time := inp.end_time,
        creator_id := creator_id,
        creator_name := creator_name,
        attendees := inp.attendees }
    .ok (store ++ [m])

/-- The meeting collection after a create request: unchanged when the
request fails, the returned store when it succeeds. -/
def meetingStoreAfterCreate (store : List Meeting) (creator_id creator_name : String)
    (inp : MeetingInput) (newId : String) : List Meeting :=
  match createMeeting store creator_id creator_name inp newId with
  | .error _ => store
  | .ok s => s

/-- Modelled from the spec: the backend meeting delete endpoint, whose
server code is not among the sources (only the client caller in
MeetingScheduler.js is). Per spec section 4.5 it fails with Forbidden if
the requester is not the creator, with NotFound if no such meeting exists,
and otherwise removes the record. -/
def deleteMeeting (store : List Meeting) (meetingId requesterId : String) :
    Except MeetingError (List Meeting) :=
  match store.find? (fun m => m.id == meetingId) with
  | none => .error .NotFound
  | some m =>
    if m.creator_id == requesterId then
      .ok (store.filter (fun x => x.id != meetingId))
    else .error .Forbidden

/-- The success branch of handleDeleteMeeting (MeetingScheduler.js
line 118): the displayed list keeps exactly the meetings whose id differs
from the deleted one. -/
def deleteMeetingFromList (meetings : List Meeting) (meetingId : String) : List Meeting :=
  meetings.filter (fun m => m.id != meetingId)

/-- The visibility condition of the delete control (MeetingScheduler.js
line 388): shown only when the creator id of the meeting equals the id of
the logged-in user. -/
def showDeleteButton (m : Meeting) (userId : String) : Bool :=
  m.creator_id == userId

/-! ## File upload dropzone (src/frontend/src/components/FileUpload.js) -/

/-- The metadata of a dropped file the dropzone validation looks at. -/
structure DropFile where
  name : String
  type : String
  size : Nat
  deriving DecidableEq

/-- The accept configuration passed to useDropzone (FileUpload.js
lines 105-114): MIME patterns each with their file extensions. -/
def acceptEntries : List (String × List String) :=
  [("image/*", [".jpeg", ".jpg", ".png", ".gif", ".webp"]),
   ("application/pdf", [".pdf"]),
   ("application/msword", [".doc"]),
   ("application/vnd.openxmlformats-officedocument.wordprocessingml.document", [".docx"]),
   ("application/vnd.ms-excel", [".xls"]),
   ("application/vnd.openxmlformats-officedocument.spreadsheetml.sheet", [".xlsx"]),
   ("text/*", [".txt", ".csv"]),
   ("video/*", [".mp4", ".avi", ".mov", ".wmv"])]

/-- The maxSize option passed to useDropzone (FileUpload.js line 104):
50 MB. -/
def maxUploadSize : Nat := 50 * 1024 * 1024

/-- The characters of a pattern matched against the front of a character
list: empty pattern matches, otherwise the heads must agree and the tails
match. -/
def frontMatches : List Char → List Char → Bool
  | [], _ => true
  | _ :: _, [] => false
  | p :: ps, c :: cs => p == c && frontMatches ps cs

/-- String suffix test by matching the reversed suffix against the
reversed string. -/
def strEndsWith (s suffix : String) : Bool :=
  frontMatches suffix.data.reverse s.data.reverse

/-- ASCII lowercase of one character. -/
def charLower (c : Char) : Char :=
  if 'A' ≤ c ∧ c ≤ 'Z' then Char.ofNat (c.toNat + 32) else c

/-- ASCII lowercase of a string. -/
def lowerStr (s : String) : String :=
  String.mk (s.data.map charLower)

/-- The part of a MIME type before the slash. -/
def baseMime (t : String) : String :=
  String.mk (t.data.takeWhile (fun c => c != '/'))

/-- One MIME pattern of the accept configuration matched against a file
content type, following the validator used by the dropzone library: a
pattern ending in slash-star matches any type with that base, otherwise
the types must be equal. -/
def mimeMatches (pattern ftype : String) : Bool :=
  if strEndsWith pattern "/*" then
    baseMime ftype == String.mk (pattern.data.dropLast.dropLast)
  else ftype == pattern

/-- One extension list of the accept configuration matched against a file
name, following the validator used by the dropzone library: the lowercased
name must end with one of the lowercased extensions. -/
def extMatches (exts : List String) (name : String) : Bool :=
  exts.any (fun e => strEndsWith (lowerStr name) (lowerStr e))

/-- A content type matched by some MIME pattern of the accept
configuration. -/
def mimeWhitelisted (ftype : String) : Bool :=
  acceptEntries.any (fun pe => mimeMatches pe.1 ftype)

/-- A file name carrying some extension listed in the accept
configuration. -/
def extWhitelisted (name : String) : Bool :=
  acceptEntries.any (fun pe => extMatches pe.2 name)

/-- The per-file acceptance of the dropzone, following the documented
behavior of the react-dropzone validator for an accept object: a file is
accepted when any entry matches it, either by its MIME pattern against the
file type or by one of its extensions against the file name. -/
def fileAccepted (f : DropFile) : Bool :=
  acceptEntries.any (fun pe => mimeMatches pe.1 f.type || extMatches pe.2 f.name)

/-- The accepted list the dropzone hands to onDrop, following the
documented behavior of react-dropzone with the options of FileUpload.js:
files failing the accept configuration or exceeding maxSize are rejected,
and with maxFiles set to 1 a drop yielding more than one accepted file
rejects them all. -/
def dropzoneAcceptedFiles (files : List DropFile) : List DropFile :=
  if (files.filter (fun f => fileAccepted f && decide (f.size ≤ maxUploadSize))).length > 1
  then []
  else files.filter (fun f => fileAccepted f && decide (f.size ≤ maxUploadSize))

/-- The onDrop callback of FileUpload.js (lines 93-98): it uploads the
first accepted file when one exists and nothing otherwise. The result is
the list of files submitted for upload. -/
def onDrop (acceptedFiles : List DropFile) : List DropFile :=
  match acceptedFiles with
  | [] => []
  | f :: _ => [f]

/-- The files submitted for upload by a drop event: the onDrop callback
applied to the accepted list computed by the dropzone. -/
def dropUploads (files : List DropFile) : List DropFile :=
  onDrop (dropzoneAcceptedFiles files)

/-! ## Shared API client and token storage (src/frontend/src/config/api.js) -/

/-- localStorage as a map from key to stored string; getItem of a missing
key returns none (null in JavaScript). -/
def Storage : Type := String → Option String

/-- localStorage.setItem. -/
def setItem (s : Storage) (key value : String) : Storage :=
  fun k => if k = key then some value else s k

/-- An axios request as far as the interceptor is concerned: its URL and
its Authorization header. -/
structure Request where
  url : String
  authHeader : Option String
  deriving DecidableEq

/-- The axios request interceptor of api.js (lines 27-33): it reads
localStorage key token and, when that holds a truthy (nonempty) string,
sets the Authorization header to Bearer followed by it; otherwise the
request passes through unchanged. -/
def requestInterceptor (s : Storage) (config : Request) : Request :=
  match s "token" with
  | some token =>
    if token = "" then config
    else { config with authHeader := some ("Bearer " ++ token) }
  | none => config

/-- The request issued by uploadAttendance (api.js lines 36-46) before the
interceptor runs: no Authorization header of its own. -/
def uploadAttendanceRequest : Request :=
  { url := "/attendance/upload", authHeader := none }

/-- The request issued by getAttendance (api.js lines 48-57) before the
interceptor runs: no Authorization header of its own. -/
def getAttendanceRequest : Request :=
  { url := "/attendance", authHeader := none }

/-- The localStorage writes performed by login (AuthContext.js
lines 139-140): the user JSON under showtimeUser and the access token
under showtimeToken. -/
def loginStorage (s : Storage) (userJson accessToken : String) : Storage :=
  setItem (setItem s "showtimeUser" userJson) "showtimeToken" accessToken

/-! ## Theorems -/

/-- C1: a status_update message sets exactly the entry for its user id to
the received status and leaves every other entry of the client status map
unchanged; an all_statuses message replaces the whole map with the received
snapshot; and immediately after the connection opens the client sends
exactly one get_all_statuses request. -/
theorem C1_presence_message_effects (m snap : StatusMap) (uid st k : String) :
    (onMessage m (.status_update uid st) uid = some st) ∧
    (k ≠ uid → onMessage m (.status_update uid st) k = m k) ∧
    (onMessage m (.all_statuses snap) = snap) ∧
    ((onOpen uid m).2 = [ClientMsg.get_all_statuses]) := by
  refine ⟨?_, ?_, rfl, rfl⟩
  · simp [onMessage, setUserStatus]
  · intro hk
    simp [onMessage, setUserStatus, hk]

theorem C1_presence_message_effects_witness :
    ("u2" : String) ≠ "u1" ∧
    onMessage (fun _ => none) (.status_update "u1" "online") "u2"
      = (fun _ => (none : Option String)) "u2" :=
  ⟨by decide,
   (C1_presence_message_effects (fun _ => none) (fun _ => none) "u1" "online" "u2").2.1
     (by decide)⟩

/-- C2: the derived meeting status is Ongoing exactly when now lies in the
closed interval from start to end; otherwise it is Upcoming exactly when
now is strictly before start; otherwise it is Past. -/
theorem C2_meeting_status_derivation (now : Int) (m : Meeting) :
    (getMeetingStatus now m = .Ongoing ↔ (m.start_time ≤ now ∧ now ≤ m.end_time)) ∧
    (getMeetingStatus now m = .Upcoming ↔
      (¬(m.start_time ≤ now ∧ now ≤ m.end_time) ∧ now < m.start_time)) ∧
    (getMeetingStatus now m = .Past ↔
      (¬(m.start_time ≤ now ∧ now ≤ m.end_time) ∧ ¬ now < m.start_time)) := by
  by_cases h1 : m.start_time ≤ now <;>
    by_cases h2 : now ≤ m.end_time <;>
    by_cases h3 : now < m.start_time <;>
    simp [getMeetingStatus, isOngoing, isUpcoming, h1, h2, h3]

/-- C3: the isAdmin flag of every user produced by login is true exactly
when the email equals the hardcoded administrative address, and the admin
panel renders Access Denied exactly for the users whose isAdmin flag is
false. -/
theorem C3_admin_fixed_identity (u : ServerUser) (t : String) (au : AuthUser) :
    ((loginUserData u t).isAdmin = true ↔ u.email = ADMIN_EMAIL) ∧
    (adminPanelView (some au) = .accessDenied ↔ au.isAdmin = false) := by
  constructor
  · simp [loginUserData]
  · cases h : au.isAdmin <;> simp [adminPanelView, h]

/-- C8: when the connection opens the client sets its own status to online
in the local map before any server message, and processing any subsequent
all_statuses message makes the local map exactly equal to the received
snapshot, discarding every provisional entry not present in it. -/
theorem C8_optimistic_status_reconciled (uid : String) (m snap : StatusMap) :
    ((onOpen uid m).1 uid = some "online") ∧
    (∀ m2 : StatusMap, onMessage m2 (.all_statuses snap) = snap) ∧
    (onMessage ((onOpen uid m).1) (.all_statuses snap) = snap) := by
  refine ⟨?_, fun _ => rfl, rfl⟩
  simp [onOpen, setUserStatus]

/-- C4: whenever start is greater than or equal to end, the modelled
backend create fails with InvalidTimeRange and the meeting collection is
unchanged. The cited concrete input start 2025-03-01T10:00:00Z and end
2025-03-01T09:00:00Z corresponds to the epoch seconds used in the
witness. -/
theorem C4_create_invalid_time_range (store : List Meeting)
    (creator_id creator_name : String) (inp : MeetingInput) (newId : String)
    (h : inp.end_time ≤ inp.start_time) :
    createMeeting store creator_id creator_name inp newId = .error .InvalidTimeRange ∧
    meetingStoreAfterCreate store creator_id creator_name inp newId = store := by
  constructor
  · simp [createMeeting, if_pos h]
  · simp [meetingStoreAfterCreate, createMeeting, if_pos h]

theorem C4_create_invalid_time_range_witness :
    ((1740819600 : Int) ≤ 1740823200) ∧
    createMeeting [] "u1" "Alice"
      { title := "Sync", description := "", start_time := 1740823200,
        end_time := 1740819600, attendees := [] } "m1"
      = .error .InvalidTimeRange ∧
    meetingStoreAfterCreate [] "u1" "Alice"
      { title := "Sync", description := "", start_time := 1740823200,
        end_time := 1740819600, attendees := [] } "m1"
      = [] :=
  ⟨by decide,
   (C4_create_invalid_time_range [] "u1" "Alice"
     { title := "Sync", description := "", start_time := 1740823200,
       end_time := 1740819600, attendees := [] } "m1" (by decide)).1,
   (C4_create_invalid_time_range [] "u1" "Alice"
     { title := "Sync", description := "", start_time := 1740823200,
       end_time := 1740819600, attendees := [] } "m1" (by decide)).2⟩

/-- C5 counterexample: adding an email that is already in the attendee
list does not make it appear twice; addAttendee leaves the list
unchanged. -/
theorem C5_counterexample :
    (addAttendee "a@b.com"
      { title := "Standup", description := "", start_time := "s",
        end_time := "e", attendees := ["a@b.com"] }).1.attendees
      = ["a@b.com"] ∧
    ¬ (addAttendee "a@b.com"
      { title := "Standup", description := "", start_time := "s",
        end_time := "e", attendees := ["a@b.com"] }).1.attendees.count "a@b.com" = 2 := by
  constructor
  · decide
  · decide

/-- C5 amended: addAttendee appends an email only when it is nonempty and
not already present; adding an email that is already in the attendee list
leaves the form unchanged and keeps the typed email in the input field, so
the client add flow enforces uniqueness of attendee emails. -/
theorem C5_add_duplicate_attendee_noop (e : String) (f : FormData)
    (h : e ∈ f.attendees) :
    addAttendee e f = (f, e) := by
  have : ¬ (e ≠ "" ∧ e ∉ f.attendees) := by
    intro hc
    exact hc.2 h
  simp [addAttendee, this]

theorem C5_add_duplicate_attendee_noop_witness :
    ("a@b.com" : String) ∈ ["a@b.com"] ∧
    addAttendee "a@b.com"
      { title := "Standup", description := "", start_time := "s",
        end_time := "e", attendees := ["a@b.com"] }
      = ({ title := "Standup", description := "", start_time := "s",
           end_time := "e", attendees := ["a@b.com"] }, "a@b.com") :=
  ⟨by decide,
   C5_add_duplicate_attendee_noop "a@b.com"
     { title := "Standup", description := "", start_time := "s",
       end_time := "e", attendees := ["a@b.com"] } (by decide)⟩

/-- C6: whenever the title, the start time or the end time of the form is
empty, handleCreateMeeting refuses to submit the request and the meeting
list stays unchanged whatever the server would have answered. -/
theorem C6_create_missing_required_field (f : FormData) (meetings : List Meeting)
    (serverResult : FormData → List Meeting → List Meeting)
    (h : f.title = "" ∨ f.start_time = "" ∨ f.end_time = "") :
    handleCreateMeeting f = .refuse ∧
    meetingsAfterCreate f meetings serverResult = meetings := by
  constructor
  · simp [handleCreateMeeting, if_pos h]
  · simp [meetingsAfterCreate, handleCreateMeeting, if_pos h]

theorem C6_create_missing_required_field_witness :
    (("" : String) = "" ∨ ("2025-03-01T10:00" : String) = "" ∨ ("2025-03-01T11:00" : String) = "") ∧
    handleCreateMeeting
      { title := "", description := "", start_time := "2025-03-01T10:00",
        end_time := "2025-03-01T11:00", attendees := [] } = .refuse ∧
    meetingsAfterCreate
      { title := "", description := "", start_time := "2025-03-01T10:00",
        end_time := "2025-03-01T11:00", attendees := [] } [] (fun _ ms => ms)
      = [] :=
  ⟨Or.inl rfl,
   (C6_create_missing_required_field
     { title := "", description := "", start_time := "2025-03-01T10:00",
       end_time := "2025-03-01T11:00", attendees := [] } [] (fun _ ms => ms)
     (Or.inl rfl)).1,
   (C6_create_missing_required_field
     { title := "", description := "", start_time := "2025-03-01T10:00",
       end_time := "2025-03-01T11:00", attendees := [] } [] (fun _ ms => ms)
     (Or.inl rfl)).2⟩

/-- C7: the modelled backend delete fails with Forbidden when the found
meeting was not created by the requester and removes exactly that meeting
when it was; on the client, a successful delete keeps exactly the meetings
whose id differs from the deleted one, and the delete control is offered
exactly when the logged-in user id equals the creator id of the
meeting. -/
theorem C7_delete_creator_only (store meetings : List Meeting)
    (meetingId requesterId userId : String) (m x : Meeting) :
    (store.find? (fun y => y.id == meetingId) = some m → m.creator_id ≠ requesterId →
      deleteMeeting store meetingId requesterId = .error .Forbidden) ∧
    (store.find? (fun y => y.id == meetingId) = some m → m.creator_id = requesterId →
      deleteMeeting store meetingId requesterId = .ok (deleteMeetingFromList store meetingId)) ∧
    (x ∈ deleteMeetingFromList meetings meetingId ↔ x ∈ meetings ∧ x.id ≠ meetingId) ∧
    (showDeleteButton m userId = true ↔ m.creator_id = userId) := by
  refine ⟨?_, ?_, ?_, ?_⟩
  · intro hf hne
    simp [deleteMeeting, hf, hne]
  · intro hf heq
    simp [deleteMeeting, deleteMeetingFromList, hf, heq]
  · simp [deleteMeetingFromList, List.mem_filter, bne_iff_ne]
  · simp [showDeleteButton]

theorem C7_delete_creator_only_witness :
    (List.find? (fun y => y.id == "m1")
      [({ id := "m1", title := "T", description := "", start_time := 0,
          end_time := 1, creator_id := "alice", creator_name := "A",
          attendees := [] } : Meeting)]
      = some { id := "m1", title := "T", description := "", start_time := 0,
               end_time := 1, creator_id := "alice", creator_name := "A",
               attendees := [] }) ∧
    ("alice" : String) ≠ "bob" ∧
    deleteMeeting
      [{ id := "m1", title := "T", description := "", start_time := 0,
         end_time := 1, creator_id := "alice", creator_name := "A",
         attendees := [] }] "m1" "bob" = .error .Forbidden ∧
    deleteMeeting
      [{ id := "m1", title := "T", description := "", start_time := 0,
         end_time := 1, creator_id := "alice", creator_name := "A",
         attendees := [] }] "m1" "alice"
      = .ok (deleteMeetingFromList
          [{ id := "m1", title := "T", description := "", start_time := 0,
             end_time := 1, creator_id := "alice", creator_name := "A",
             attendees := [] }] "m1") :=
  ⟨by decide, by decide,
   (C7_delete_creator_only
     [{ id := "m1", title := "T", description := "", start_time := 0,
        end_time := 1, creator_id := "alice", creator_name := "A",
        attendees := [] }] [] "m1" "bob" "u"
     { id := "m1", title := "T", description := "", start_time := 0,
       end_time := 1, creator_id := "alice", creator_name := "A",
       attendees := [] }
     { id := "m1", title := "T", description := "", start_time := 0,
       end_time := 1, creator_id := "alice", creator_name := "A",
       attendees := [] }).1 (by decide) (by decide),
   (C7_delete_creator_only
     [{ id := "m1", title := "T", description := "", start_time := 0,
        end_time := 1, creator_id := "alice", creator_name := "A",
        attendees := [] }] [] "m1" "alice" "u"
     { id := "m1", title := "T", description := "", start_time := 0,
       end_time := 1, creator_id := "alice", creator_name := "A",
       attendees := [] }
     { id := "m1", title := "T", description := "", start_time := 0,
       end_time := 1, creator_id := "alice", creator_name := "A",
       attendees := [] }).2.1 (by decide) (by decide)⟩

/-- Membership in the accepted list of the dropzone forces the accept
check and the size bound. -/
theorem mem_dropzone_accepted {g : DropFile} {files : List DropFile}
    (h : g ∈ dropzoneAcceptedFiles files) :
    fileAccepted g = true ∧ g.size ≤ maxUploadSize := by
  unfold dropzoneAcceptedFiles at h
  split at h
  · exact absurd h (List.not_mem_nil g)
  · have h2 := List.mem_filter.mp h
    have h3 : fileAccepted g = true ∧ decide (g.size ≤ maxUploadSize) = true := by
      simpa using h2.2
    exact ⟨h3.1, of_decide_eq_true h3.2⟩

/-- Every file submitted for upload comes from the accepted list. -/
theorem mem_dropUploads {g : DropFile} {files : List DropFile}
    (h : g ∈ dropUploads files) : g ∈ dropzoneAcceptedFiles files := by
  unfold dropUploads onDrop at h
  rcases hd : dropzoneAcceptedFiles files with _ | ⟨a, t⟩
  · rw [hd] at h
    exact absurd h (List.not_mem_nil g)
  · rw [hd] at h
    simp at h
    rw [h]
    exact List.mem_cons_self a t

/-- C9 counterexample: a file whose content type is outside the MIME
whitelist but whose name carries a whitelisted extension is accepted and
submitted for upload. -/
theorem C9_counterexample :
    mimeWhitelisted "application/octet-stream" = false ∧
    dropUploads [⟨"report.pdf", "application/octet-stream", 100⟩]
      = [⟨"report.pdf", "application/octet-stream", 100⟩] := by
  constructor
  · decide
  · decide

/-- C9 amended: for every drop event at most one file is submitted for
upload, namely the first accepted file; any file larger than the 50 MB
limit is rejected and never uploaded; and a file is rejected and never
uploaded when its content type matches no MIME pattern of the whitelist
and its name carries no whitelisted extension. -/
theorem C9_dropzone_upload_filter (files : List DropFile) (f : DropFile) :
    ((dropUploads files).length ≤ 1) ∧
    (dropUploads files = (dropzoneAcceptedFiles files).take 1) ∧
    (f.size > maxUploadSize → f ∉ dropUploads files) ∧
    (mimeWhitelisted f.type = false → extWhitelisted f.name = false →
      f ∉ dropUploads files) := by
  refine ⟨?_, ?_, ?_, ?_⟩
  · unfold dropUploads onDrop
    rcases dropzoneAcceptedFiles files with _ | ⟨a, t⟩ <;> simp
  · unfold dropUploads onDrop
    rcases dropzoneAcceptedFiles files with _ | ⟨a, t⟩ <;> simp
  · intro hs hmem
    have h2 := (mem_dropzone_accepted (mem_dropUploads hmem)).2
    omega
  · intro hm he hmem
    have h1 := (mem_dropzone_accepted (mem_dropUploads hmem)).1
    unfold fileAccepted at h1
    rw [List.any_eq_true] at h1
    obtain ⟨pe, hpe, hor⟩ := h1
    rw [Bool.or_eq_true] at hor
    rcases hor with hmime | hext
    · have hw : mimeWhitelisted f.type = true := by
        unfold mimeWhitelisted
        rw [List.any_eq_true]
        exact ⟨pe, hpe, hmime⟩
      rw [hm] at hw
      exact Bool.false_ne_true hw
    · have hw : extWhitelisted f.name = true := by
        unfold extWhitelisted
        rw [List.any_eq_true]
        exact ⟨pe, hpe, hext⟩
      rw [he] at hw
      exact Bool.false_ne_true hw

theorem C9_dropzone_upload_filter_witness :
    ((⟨"big.png", "image/png", 52428801⟩ : DropFile).size > maxUploadSize) ∧
    (⟨"big.png", "image/png", 52428801⟩ : DropFile)
      ∉ dropUploads [⟨"big.png", "image/png", 52428801⟩] ∧
    mimeWhitelisted "application/zip" = false ∧
    extWhitelisted "a.zip" = false ∧
    (⟨"a.zip", "application/zip", 10⟩ : DropFile)
      ∉ dropUploads [⟨"a.zip", "application/zip", 10⟩] :=
  ⟨by decide,
   (C9_dropzone_upload_filter [⟨"big.png", "image/png", 52428801⟩]
     ⟨"big.png", "image/png", 52428801⟩).2.2.1 (by decide),
   by decide, by decide,
   (C9_dropzone_upload_filter [⟨"a.zip", "application/zip", 10⟩]
     ⟨"a.zip", "application/zip", 10⟩).2.2.2 (by decide) (by decide)⟩

/-- C10: the shared API client adds an Authorization Bearer header exactly
from a nonempty localStorage entry under the key token and passes the
request through untouched when that key is absent; login writes only the
keys showtimeUser and showtimeToken, leaving the key token as it was, so
after a login from a state without that key the attendance requests carry
no Authorization header. -/
theorem C10_auth_header_token_key (s : Storage) (t userJson tok : String) (r : Request) :
    (s "token" = some t → t ≠ "" →
      (requestInterceptor s r).authHeader = some ("Bearer " ++ t)) ∧
    (s "token" = none → requestInterceptor s r = r) ∧
    (loginStorage s userJson tok "token" = s "token") ∧
    (s "token" = none →
      requestInterceptor (loginStorage s userJson tok) uploadAttendanceRequest
        = uploadAttendanceRequest ∧
      requestInterceptor (loginStorage s userJson tok) getAttendanceRequest
        = getAttendanceRequest) := by
  have hkey : loginStorage s userJson tok "token" = s "token" := by
    simp [loginStorage, setItem]
  refine ⟨?_, ?_, hkey, ?_⟩
  · intro h hne
    simp [requestInterceptor, h, hne]
  · intro h
    simp [requestInterceptor, h]
  · intro h
    constructor <;> simp [requestInterceptor, hkey, h]

theorem C10_auth_header_token_key_witness :
    ((fun k => if k = "token" then some "tkn" else none) : Storage) "token" = some "tkn" ∧
    ("tkn" : String) ≠ "" ∧
    (requestInterceptor (fun k => if k = "token" then some "tkn" else none)
      { url := "/attendance", authHeader := none }).authHeader
      = some ("Bearer " ++ "tkn") ∧
    ((fun _ => none) : Storage) "token" = none ∧
    requestInterceptor (loginStorage (fun _ => none) "userjson" "abc")
      uploadAttendanceRequest = uploadAttendanceRequest :=
  ⟨by decide, by decide,
   (C10_auth_header_token_key (fun k => if k = "token" then some "tkn" else none)
     "tkn" "userjson" "abc" { url := "/attendance", authHeader := none }).1
     (by decide) (by decide),
   rfl,
   ((C10_auth_header_token_key (fun _ => none) "tkn" "userjson" "abc"
     { url := "/attendance", authHeader := none }).2.2.2 rfl).1⟩

end STC
